import Mathlib

/-!
Verification of the frame-sequential confidence-scoring classifier in
`behaviour_analysis.py` (class `OrangutanBehaviorAnalyzer`).

Shallow embedding conventions:
* A Python float value is modelled as `F := Option ℝ`, where `none` models
  IEEE NaN.  Arithmetic on `F` propagates `none`; the comparison `fltP`
  (Python `<`) is false whenever either side is NaN, matching IEEE
  comparison semantics that the code relies on for malformed rows.
* Raw per-behavior confidences are Python ints, modelled as `ℕ`.
* Normalized confidences `(v / total) * 100` are modelled exactly in `ℚ`
  (the raw scores are integers, so the Python float computation is the
  rounded image of this exact rational value).
* The pandas row is modelled as the structure `Row` with one field per
  `{joint}_x` / `{joint}_y` column that the classifier reads.
* `analyze_all_frames` prints and writes a CSV; its observable output is
  the ordered list of per-frame result records, modelled as
  `List FrameResult`.
-/

noncomputable section

open Classical

/-- A Python float: `none` models IEEE NaN, `some x` a real value. -/
abbrev F := Option ℝ

/-- Addition on floats; NaN propagates. -/
def fadd : F → F → F
  | some a, some b => some (a + b)
  | _, _ => none

/-- Subtraction on floats; NaN propagates. -/
def fsub : F → F → F
  | some a, some b => some (a - b)
  | _, _ => none

/-- Squaring (`** 2`); NaN propagates. -/
def fsq : F → F
  | some a => some (a ^ 2)
  | none => none

/-- Division on floats; NaN propagates.  Only used with nonzero literal
divisors in the embedded code, so the float `x/0` behaviour is irrelevant. -/
def fdiv : F → F → F
  | some a, some b => some (a / b)
  | _, _ => none

/-- Python `math.sqrt`; NaN propagates.  Only applied to sums of squares in the
embedded code, so the negative-argument `ValueError` branch is unreachable. -/
def fsqrt : F → F
  | some a => some (Real.sqrt a)
  | none => none

/-- Python `abs`; NaN propagates. -/
def fabs : F → F
  | some a => some |a|
  | none => none

/-- Python `math.degrees`; NaN propagates. -/
def fdegrees : F → F
  | some a => some (a * 180 / Real.pi)
  | none => none

/-- Python `math.atan2 y x`, modelled as the argument of the complex number
`x + y*i`, which has range `(-pi, pi]` and sends the origin to `0`,
exactly as `atan2` does.  NaN propagates. -/
def fatan2 : F → F → F
  | some y, some x => some (Complex.arg ⟨x, y⟩)
  | _, _ => none

/-- Python `a < b` on floats: false whenever either side is NaN. -/
def fltP (a b : F) : Prop := ∃ x y, a = some x ∧ b = some y ∧ x < y

/-- One row of the processed coordinate table: the `{joint}_x`/`{joint}_y`
columns read by the classifier. -/
structure Row where
  head_x : F
  head_y : F
  torso_x : F
  torso_y : F
  left_shoulder_x : F
  left_shoulder_y : F
  right_shoulder_x : F
  right_shoulder_y : F
  left_hand_x : F
  left_hand_y : F
  right_hand_x : F
  right_hand_y : F
  left_hip_x : F
  left_hip_y : F
  right_hip_x : F
  right_hip_y : F
  left_knee_x : F
  left_knee_y : F
  right_knee_x : F
  right_knee_y : F
  left_foot_x : F
  left_foot_y : F
  right_foot_x : F
  right_foot_y : F

/-- The joint names passed to `get_joint_coordinates`. -/
inductive Joint where
  | head | torso
  | left_shoulder | right_shoulder
  | left_hand | right_hand
  | left_hip | right_hip
  | left_knee | right_knee
  | left_foot | right_foot

/-- Embeds `calculate_distance`: Euclidean distance between two points. -/
def calculate_distance (x1 y1 x2 y2 : F) : F :=
  fsqrt (fadd (fsq (fsub x2 x1)) (fsq (fsub y2 y1)))

/-- Embeds `calculate_angle`: absolute value of the degree-converted difference of
two `atan2` values (ray `p2 -> p3` minus ray `p2 -> p1`). -/
def calculate_angle (point1 point2 point3 : F × F) : F :=
  fabs (fdegrees (fsub
    (fatan2 (fsub point3.2 point2.2) (fsub point3.1 point2.1))
    (fatan2 (fsub point1.2 point2.2) (fsub point1.1 point2.1))))

/-- Embeds `get_joint_coordinates`: the `(x, y)` pair of columns for a joint. -/
def get_joint_coordinates (row : Row) : Joint → F × F
  | Joint.head => (row.head_x, row.head_y)
  | Joint.torso => (row.torso_x, row.torso_y)
  | Joint.left_shoulder => (row.left_shoulder_x, row.left_shoulder_y)
  | Joint.right_shoulder => (row.right_shoulder_x, row.right_shoulder_y)
  | Joint.left_hand => (row.left_hand_x, row.left_hand_y)
  | Joint.right_hand => (row.right_hand_x, row.right_hand_y)
  | Joint.left_hip => (row.left_hip_x, row.left_hip_y)
  | Joint.right_hip => (row.right_hip_x, row.right_hip_y)
  | Joint.left_knee => (row.left_knee_x, row.left_knee_y)
  | Joint.right_knee => (row.right_knee_x, row.right_knee_y)
  | Joint.left_foot => (row.left_foot_x, row.left_foot_y)
  | Joint.right_foot => (row.right_foot_x, row.right_foot_y)

/-- Embeds `calculate_velocity`: change in position between frames; Python `int`
`0` (here `some 0`) when there is no previous frame. -/
def calculate_velocity (current_frame : Row) (previous_frame : Option Row)
    (joint : Joint) : F :=
  match previous_frame with
  | none => some 0
  | some prev =>
      let c := get_joint_coordinates current_frame joint
      let p := get_joint_coordinates prev joint
      calculate_distance c.1 c.2 p.1 p.2

/-- Embeds `calculate_centre_hip`: coordinate-wise midpoint of the two hips. -/
def calculate_centre_hip (left_hip_x left_hip_y right_hip_x right_hip_y : F) :
    F × F :=
  (fdiv (fadd left_hip_x right_hip_x) (some 2),
   fdiv (fadd left_hip_y right_hip_y) (some 2))

/-- Embeds `analyze_sitting`: raw sitting confidence. -/
def analyze_sitting (row : Row) (prev_row : Option Row) : ℕ :=
  let left_hip_to_knee := calculate_distance
    row.left_hip_x row.left_hip_y row.left_knee_x row.left_knee_y
  let right_hip_to_knee := calculate_distance
    row.right_hip_x row.right_hip_y row.right_knee_x row.right_knee_y
  let center_hip := calculate_centre_hip
    row.left_hip_x row.left_hip_y row.right_hip_x row.right_hip_y
  let torso_angle := calculate_angle
    (row.head_x, row.head_y) (row.torso_x, row.torso_y) center_hip
  let confidence : ℕ := 0
  let confidence :=
    match prev_row with
    | some prev =>
        let movement := calculate_velocity row (some prev) Joint.torso
        if fltP movement (some 50) then confidence + 35 else confidence
    | none => confidence
  let confidence :=
    if fltP left_hip_to_knee (some 100) ∧ fltP right_hip_to_knee (some 100)
    then confidence + 35 else confidence
  let confidence :=
    if fltP (some 100) torso_angle ∧ fltP torso_angle (some 178)
    then confidence + 30 else confidence
  min confidence 100

/-- Embeds `analyze_climbing`: raw climbing confidence. -/
def analyze_climbing (row : Row) (_prev_row : Option Row) : ℕ :=
  let left_arm_extension := calculate_distance
    row.left_shoulder_x row.left_shoulder_y row.left_hand_x row.left_hand_y
  let right_arm_extension := calculate_distance
    row.right_shoulder_x row.right_shoulder_y row.right_hand_x row.right_hand_y
  let hands_elevated :=
    fltP row.left_hand_y row.torso_y ∧ fltP row.right_hand_y row.torso_y
  let feet_hanging :=
    fltP row.torso_y row.left_foot_y ∧ fltP row.torso_y row.right_foot_y
  let confidence : ℕ := 0
  let confidence :=
    if fltP (some 125) left_arm_extension ∨ fltP (some 125) right_arm_extension
    then confidence + 40 else confidence
  let confidence := if hands_elevated then confidence + 30 else confidence
  let confidence := if feet_hanging then confidence + 30 else confidence
  min confidence 100

/-- Embeds `analyze_walking`: raw walking confidence. -/
def analyze_walking (row : Row) (prev_row : Option Row) : ℕ :=
  let leg_separation := calculate_distance
    row.left_foot_x row.left_foot_y row.right_foot_x row.right_foot_y
  let confidence : ℕ := 0
  let confidence :=
    match prev_row with
    | some prev =>
        let horizontal_movement := fabs (fsub row.torso_x prev.torso_x)
        if fltP (some 90) horizontal_movement ∧
           fltP horizontal_movement (some 1000)
        then confidence + 50 else confidence
    | none => confidence
  let confidence :=
    if fltP (some 115) leg_separation ∧ fltP leg_separation (some 125)
    then confidence + 50 else confidence
  min confidence 100

/-- The per-frame confidence dictionary, with its three fixed keys. -/
structure Confidences where
  sitting : ℚ
  walking : ℚ
  climbing : ℚ

/-- The dictionary in Python insertion order, as `(key, value)` items. -/
def Confidences.items (c : Confidences) : List (String × ℚ) :=
  [("sitting", c.sitting), ("walking", c.walking), ("climbing", c.climbing)]

/-- Embeds `analyze_frame`: the three raw scores, normalized to sum to 100 when the
raw total is positive, left untouched otherwise. -/
def analyze_frame (row : Row) (previous_row : Option Row) : Confidences :=
  let s := analyze_sitting row previous_row
  let w := analyze_walking row previous_row
  let c := analyze_climbing row previous_row
  let total := s + w + c
  if 0 < total then
    { sitting := (s : ℚ) / total * 100
      walking := (w : ℚ) / total * 100
      climbing := (c : ℚ) / total * 100 }
  else
    { sitting := (s : ℚ), walking := (w : ℚ), climbing := (c : ℚ) }

/-- Python `max(items, key := value)` over a nonempty list: scans left to
right and replaces the current best only on a strictly greater value, so
the first of several maxima wins.  The `[]` case is unreachable here
(`items` always has three elements); any default serves. -/
def pyMaxAux : (String × ℚ) → List (String × ℚ) → String × ℚ
  | acc, [] => acc
  | acc, x :: xs => pyMaxAux (if acc.2 < x.2 then x else acc) xs

/-- Python `max` with a key function, on `(key, value)` items. -/
def pyMax : List (String × ℚ) → String × ℚ
  | [] => ("", 0)
  | x :: xs => pyMaxAux x xs

/-- One output record of `analyze_all_frames`. -/
structure FrameResult where
  frame : ℕ
  sitting : ℚ
  walking : ℚ
  climbing : ℚ
  behavior : String
  confidence : ℚ

/-- The body of the `analyze_all_frames` loop for index `frame_idx`. -/
def analyze_frame_record (frame_idx : ℕ) (row : Row) (prev : Option Row) :
    FrameResult :=
  let confidences := analyze_frame row prev
  let m := pyMax confidences.items
  let majority_behavior := if m.2 < 40 then "unknown" else m.1
  { frame := frame_idx + 1
    sitting := confidences.sitting
    walking := confidences.walking
    climbing := confidences.climbing
    behavior := majority_behavior
    confidence := m.2 }

/-- The `analyze_all_frames` loop from index `idx` on, with `prev` the row
at index `idx - 1` (or `none` at the start). -/
def analyzeFramesFrom : Option Row → ℕ → List Row → List FrameResult
  | _, _, [] => []
  | prev, idx, row :: rest =>
      analyze_frame_record idx row prev ::
        analyzeFramesFrom (some row) (idx + 1) rest

/-- Embeds `analyze_all_frames`: the ordered list of per-frame records (the CSV
rows / printed results). -/
def analyze_all_frames (data : List Row) : List FrameResult :=
  analyzeFramesFrom none 0 data

/-! Spec-side predicates: the sub-rule conditions as the specification
states them, one named predicate per sub-rule, for comparison with the
accumulating code above. -/

/-- Sitting sub-rule 1 as specified: a previous frame exists and the
Euclidean torso displacement since it is strictly less than 50. -/
def sittingLowMovement (row : Row) (prev : Option Row) : Prop :=
  ∃ p, prev = some p ∧
    fltP (calculate_distance row.torso_x row.torso_y p.torso_x p.torso_y)
      (some 50)

/-- Sitting sub-rule 2 as specified: both hip-to-knee distances are
strictly less than 100. -/
def sittingBentLegs (row : Row) : Prop :=
  fltP (calculate_distance row.left_hip_x row.left_hip_y
    row.left_knee_x row.left_knee_y) (some 100) ∧
  fltP (calculate_distance row.right_hip_x row.right_hip_y
    row.right_knee_x row.right_knee_y) (some 100)

/-- The arithmetic midpoint of the two hips, as the specification words it. -/
def hipMidpoint (row : Row) : F × F :=
  (fdiv (fadd row.left_hip_x row.right_hip_x) (some 2),
   fdiv (fadd row.left_hip_y row.right_hip_y) (some 2))

/-- Sitting sub-rule 3 as specified: the angle at the points
(head, torso, hip-midpoint) lies strictly between 100 and 178 degrees. -/
def sittingTorsoUpright (row : Row) : Prop :=
  fltP (some 100) (calculate_angle (row.head_x, row.head_y)
    (row.torso_x, row.torso_y) (hipMidpoint row)) ∧
  fltP (calculate_angle (row.head_x, row.head_y)
    (row.torso_x, row.torso_y) (hipMidpoint row)) (some 178)

/-- Walking sub-rule 1 as specified: a previous frame exists and the
absolute horizontal torso displacement is strictly between 90 and 1000. -/
def walkingHorizontalMove (row : Row) (prev : Option Row) : Prop :=
  ∃ p, prev = some p ∧
    fltP (some 90) (fabs (fsub row.torso_x p.torso_x)) ∧
    fltP (fabs (fsub row.torso_x p.torso_x)) (some 1000)

/-- Walking sub-rule 2 as specified: the foot-to-foot distance is strictly
between 115 and 125. -/
def walkingLegSeparation (row : Row) : Prop :=
  fltP (some 115) (calculate_distance row.left_foot_x row.left_foot_y
    row.right_foot_x row.right_foot_y) ∧
  fltP (calculate_distance row.left_foot_x row.left_foot_y
    row.right_foot_x row.right_foot_y) (some 125)

/-- Climbing sub-rule 1 as specified: either arm's shoulder-to-hand
distance is strictly greater than 125. -/
def climbingArmExtended (row : Row) : Prop :=
  fltP (some 125) (calculate_distance row.left_shoulder_x row.left_shoulder_y
    row.left_hand_x row.left_hand_y) ∨
  fltP (some 125) (calculate_distance row.right_shoulder_x row.right_shoulder_y
    row.right_hand_x row.right_hand_y)

/-- Climbing sub-rule 2 as specified: both hands above the torso
(smaller y means higher in image coordinates). -/
def climbingHandsElevated (row : Row) : Prop :=
  fltP row.left_hand_y row.torso_y ∧ fltP row.right_hand_y row.torso_y

/-- Climbing sub-rule 3 as specified: both feet below the torso. -/
def climbingFeetHanging (row : Row) : Prop :=
  fltP row.torso_y row.left_foot_y ∧ fltP row.torso_y row.right_foot_y

/-- The sitting score as the specification states it: an uncapped sum of
the three independent contributions. -/
def sittingScoreUncapped (row : Row) (prev : Option Row) : ℕ :=
  (if sittingLowMovement row prev then 35 else 0)
    + (if sittingBentLegs row then 35 else 0)
    + (if sittingTorsoUpright row then 30 else 0)

/-- The walking score as the specification states it: an uncapped sum of
the two independent contributions. -/
def walkingScoreUncapped (row : Row) (prev : Option Row) : ℕ :=
  (if walkingHorizontalMove row prev then 50 else 0)
    + (if walkingLegSeparation row then 50 else 0)

/-- The climbing score as the specification states it: an uncapped sum of
the three independent contributions. -/
def climbingScoreUncapped (row : Row) : ℕ :=
  (if climbingArmExtended row then 40 else 0)
    + (if climbingHandsElevated row then 30 else 0)
    + (if climbingFeetHanging row then 30 else 0)

/-- A row whose every coordinate is NaN (a fully malformed input row). -/
def nanRow : Row :=
  { head_x := none, head_y := none, torso_x := none, torso_y := none
    left_shoulder_x := none, left_shoulder_y := none
    right_shoulder_x := none, right_shoulder_y := none
    left_hand_x := none, left_hand_y := none
    right_hand_x := none, right_hand_y := none
    left_hip_x := none, left_hip_y := none
    right_hip_x := none, right_hip_y := none
    left_knee_x := none, left_knee_y := none
    right_knee_x := none, right_knee_y := none
    left_foot_x := none, left_foot_y := none
    right_foot_x := none, right_foot_y := none }

/-! Decomposition lemmas: each accumulating scorer equals the capped sum of
its independent spec-side contributions. -/

lemma analyze_sitting_split (row : Row) (prev : Option Row) :
    analyze_sitting row prev = min (sittingScoreUncapped row prev) 100 := by
  cases prev with
  | none =>
      simp only [analyze_sitting, sittingScoreUncapped, sittingLowMovement,
        sittingBentLegs, sittingTorsoUpright, hipMidpoint, calculate_centre_hip]
      simp only [reduceCtorEq, false_and, exists_false, if_false]
      split_ifs <;> decide
  | some p =>
      simp only [analyze_sitting, sittingScoreUncapped, sittingLowMovement,
        sittingBentLegs, sittingTorsoUpright, hipMidpoint, calculate_centre_hip,
        calculate_velocity, get_joint_coordinates]
      simp only [Option.some.injEq, exists_eq_left']
      split_ifs <;> decide

lemma analyze_walking_split (row : Row) (prev : Option Row) :
    analyze_walking row prev = min (walkingScoreUncapped row prev) 100 := by
  cases prev with
  | none =>
      simp only [analyze_walking, walkingScoreUncapped, walkingHorizontalMove,
        walkingLegSeparation]
      simp only [reduceCtorEq, false_and, exists_false, if_false]
      split_ifs <;> decide
  | some p =>
      simp only [analyze_walking, walkingScoreUncapped, walkingHorizontalMove,
        walkingLegSeparation]
      simp only [Option.some.injEq, exists_eq_left']
      split_ifs <;> decide

lemma analyze_climbing_split (row : Row) (prev : Option Row) :
    analyze_climbing row prev = min (climbingScoreUncapped row) 100 := by
  simp only [analyze_climbing, climbingScoreUncapped, climbingArmExtended,
    climbingHandsElevated, climbingFeetHanging]
  split_ifs <;> decide

/-! Characterization of the Python `max` over the three dictionary items. -/

lemma pyMax_items (s w c : ℚ) :
    pyMax [("sitting", s), ("walking", w), ("climbing", c)] =
      if s < w then (if w < c then ("climbing", c) else ("walking", w))
      else (if s < c then ("climbing", c) else ("sitting", s)) := by
  rcases lt_or_le s w with h1 | h1
  · simp [pyMax, pyMaxAux, h1]
  · simp [pyMax, pyMaxAux, not_lt.mpr h1]

lemma pyMax_snd_eq (s w c : ℚ) :
    (pyMax [("sitting", s), ("walking", w), ("climbing", c)]).2 =
      max s (max w c) := by
  rw [pyMax_items]
  rcases lt_or_le s w with h1 | h1
  · rcases lt_or_le w c with h2 | h2
    · rw [if_pos h1, if_pos h2, max_eq_right h2.le,
        max_eq_right (h1.trans h2).le]
    · rw [if_pos h1, if_neg (not_lt.mpr h2), max_eq_left h2,
        max_eq_right h1.le]
  · rcases lt_or_le s c with h3 | h3
    · rw [if_neg (not_lt.mpr h1), if_pos h3, max_eq_right (h1.trans h3.le),
        max_eq_right h3.le]
    · rw [if_neg (not_lt.mpr h1), if_neg (not_lt.mpr h3),
        max_eq_left (max_le h1 h3)]

lemma pyMax_fst_eq (s w c : ℚ) :
    (pyMax [("sitting", s), ("walking", w), ("climbing", c)]).1 =
      (if s = max s (max w c) then "sitting"
       else if w = max s (max w c) then "walking"
       else "climbing") := by
  rw [pyMax_items]
  rcases lt_or_le s w with h1 | h1
  · rcases lt_or_le w c with h2 | h2
    · have hm : max s (max w c) = c := by
        rw [max_eq_right h2.le, max_eq_right (h1.trans h2).le]
      rw [if_pos h1, if_pos h2, hm, if_neg (ne_of_lt (h1.trans h2)),
        if_neg (ne_of_lt h2)]
    · have hm : max s (max w c) = w := by
        rw [max_eq_left h2, max_eq_right h1.le]
      rw [if_pos h1, if_neg (not_lt.mpr h2), hm, if_neg (ne_of_lt h1), if_pos rfl]
  · rcases lt_or_le s c with h3 | h3
    · have hm : max s (max w c) = c := by
        rw [max_eq_right (h1.trans h3.le), max_eq_right h3.le]
      rw [if_neg (not_lt.mpr h1), if_pos h3, hm, if_neg (ne_of_lt h3),
        if_neg (ne_of_lt (lt_of_le_of_lt h1 h3))]
    · have hm : max s (max w c) = s := max_eq_left (max_le h1 h3)
      rw [if_neg (not_lt.mpr h1), if_neg (not_lt.mpr h3), hm, if_pos rfl]

lemma pyMax_first_wins (s w c : ℚ) :
    pyMax [("sitting", s), ("walking", w), ("climbing", c)] =
      if w ≤ s ∧ c ≤ s then ("sitting", s)
      else if c ≤ w then ("walking", w)
      else ("climbing", c) := by
  rw [pyMax_items]
  rcases lt_or_le s w with h1 | h1
  · have hns : ¬(w ≤ s ∧ c ≤ s) := fun h => absurd h1 (not_lt.mpr h.1)
    rw [if_pos h1, if_neg hns]
    rcases lt_or_le w c with h2 | h2
    · rw [if_pos h2, if_neg (not_le.mpr h2)]
    · rw [if_neg (not_lt.mpr h2), if_pos h2]
  · rcases lt_or_le s c with h3 | h3
    · have hns : ¬(w ≤ s ∧ c ≤ s) := fun h => absurd h3 (not_lt.mpr h.2)
      have hcw : ¬(c ≤ w) := not_le.mpr (lt_of_le_of_lt h1 h3)
      rw [if_neg (not_lt.mpr h1), if_pos h3, if_neg hns, if_neg hcw]
    · rw [if_neg (not_lt.mpr h1), if_neg (not_lt.mpr h3), if_pos ⟨h1, h3⟩]

/-! NaN-propagation facts for the float model. -/

lemma fsub_none_left (b : F) : fsub none b = none := by cases b <;> rfl

lemma fsub_none_right (a : F) : fsub a none = none := by cases a <;> rfl

lemma fadd_none_left (b : F) : fadd none b = none := by cases b <;> rfl

lemma fadd_none_right (a : F) : fadd a none = none := by cases a <;> rfl

lemma fdiv_none_left (b : F) : fdiv none b = none := by cases b <;> rfl

lemma fatan2_none_left (b : F) : fatan2 none b = none := by cases b <;> rfl

lemma fatan2_none_right (a : F) : fatan2 a none = none := by cases a <;> rfl

lemma fltP_none_left (b : F) : ¬ fltP none b := by
  rintro ⟨x, y, hx, -, -⟩
  exact Option.noConfusion hx

lemma fltP_none_right (a : F) : ¬ fltP a none := by
  rintro ⟨x, y, -, hy, -⟩
  exact Option.noConfusion hy

lemma calculate_distance_none_x1 (y1 x2 y2 : F) :
    calculate_distance none y1 x2 y2 = none := by
  simp [calculate_distance, fsub_none_right, fadd_none_left, fsq, fsqrt]

/-- Claim C3: for every input frame and optional previous frame, the sitting
raw score equals the sum, capped at 100, of: +35 if a previous frame exists
and the Euclidean torso displacement since it is strictly below 50; +35 if
both hip-to-knee distances are strictly below 100; +30 if the angle at
(head, torso, hip-midpoint) is strictly between 100 and 178 degrees. -/
theorem claim_C3 (row : Row) (prev : Option Row) :
    analyze_sitting row prev =
      min ((if sittingLowMovement row prev then 35 else 0)
        + (if sittingBentLegs row then 35 else 0)
        + (if sittingTorsoUpright row then 30 else 0)) 100 :=
  analyze_sitting_split row prev

/-- Claim C4: for every input frame and optional previous frame, the walking
raw score equals the sum, capped at 100, of: +50 if a previous frame exists
and the absolute horizontal torso displacement is strictly between 90 and
1000; +50 if the foot-to-foot distance is strictly between 115 and 125. -/
theorem claim_C4 (row : Row) (prev : Option Row) :
    analyze_walking row prev =
      min ((if walkingHorizontalMove row prev then 50 else 0)
        + (if walkingLegSeparation row then 50 else 0)) 100 :=
  analyze_walking_split row prev

/-- Claim C6: on the first frame of a sequence (no previous frame), the
inter-frame displacement helper returns 0 rather than failing, sitting's
low-movement sub-rule contributes nothing (only the two position-based
sub-rules can), and walking's horizontal-movement sub-rule contributes
nothing (only the leg-separation sub-rule can). -/
theorem claim_C6 (row : Row) (j : Joint) :
    calculate_velocity row none j = some 0 ∧
    analyze_sitting row none =
      (if sittingBentLegs row then 35 else 0)
        + (if sittingTorsoUpright row then 30 else 0) ∧
    analyze_walking row none = (if walkingLegSeparation row then 50 else 0) := by
  refine ⟨rfl, ?_, ?_⟩
  · rw [analyze_sitting_split]
    simp only [sittingScoreUncapped, sittingLowMovement, reduceCtorEq,
      false_and, exists_false, if_false, zero_add]
    split_ifs <;> decide
  · rw [analyze_walking_split]
    simp only [walkingScoreUncapped, walkingHorizontalMove, reduceCtorEq,
      false_and, exists_false, if_false, zero_add]
    split_ifs <;> decide

/-- Claim C10: each behavior's raw score always lies in its fixed finite
set (sitting in 0/30/35/65/70/100, walking in 0/50/100, climbing in
0/30/40/60/70/100), and the `min(confidence, 100)` cap never changes the
returned value: each raw score equals the uncapped sum of its sub-rule
contributions. -/
theorem claim_C10 (row : Row) (prev : Option Row) :
    analyze_sitting row prev ∈ ({0, 30, 35, 65, 70, 100} : Finset ℕ) ∧
    analyze_walking row prev ∈ ({0, 50, 100} : Finset ℕ) ∧
    analyze_climbing row prev ∈ ({0, 30, 40, 60, 70, 100} : Finset ℕ) ∧
    analyze_sitting row prev = sittingScoreUncapped row prev ∧
    analyze_walking row prev = walkingScoreUncapped row prev ∧
    analyze_climbing row prev = climbingScoreUncapped row := by
  rw [analyze_sitting_split, analyze_walking_split, analyze_climbing_split]
  unfold sittingScoreUncapped walkingScoreUncapped climbingScoreUncapped
  refine ⟨?_, ?_, ?_, ?_, ?_, ?_⟩ <;> split_ifs <;> decide

/-- Claim C5: the selected `(category, confidence)` pair is the first-declared
category among those attaining the maximum confidence: `sitting` whenever it
is weakly maximal, otherwise `walking` whenever it is weakly above
`climbing`, otherwise `climbing` (ties always resolve to the earlier of
`sitting`, `walking`, `climbing`). -/
theorem claim_C5 (row : Row) (prev : Option Row) :
    pyMax (analyze_frame row prev).items =
      (if (analyze_frame row prev).walking ≤ (analyze_frame row prev).sitting ∧
          (analyze_frame row prev).climbing ≤ (analyze_frame row prev).sitting
       then ("sitting", (analyze_frame row prev).sitting)
       else if (analyze_frame row prev).climbing ≤ (analyze_frame row prev).walking
       then ("walking", (analyze_frame row prev).walking)
       else ("climbing", (analyze_frame row prev).climbing)) := by
  simp only [Confidences.items]
  exact pyMax_first_wins _ _ _

/-- Claim C1: every emitted record's `Confidence` equals the maximum of the
three post-normalization confidences, and its `Classified Behavior` is the
name of the (first-declared) argmax category unless that maximum is strictly
below 40, in which case it is the literal `unknown`; relabeling never alters
the stored confidence. -/
theorem claim_C1 (frame_idx : ℕ) (row : Row) (prev : Option Row) :
    (analyze_frame_record frame_idx row prev).confidence =
      max (analyze_frame row prev).sitting
        (max (analyze_frame row prev).walking (analyze_frame row prev).climbing) ∧
    (analyze_frame_record frame_idx row prev).behavior =
      (if max (analyze_frame row prev).sitting
          (max (analyze_frame row prev).walking
            (analyze_frame row prev).climbing) < 40
       then "unknown"
       else if (analyze_frame row prev).sitting =
          max (analyze_frame row prev).sitting
            (max (analyze_frame row prev).walking
              (analyze_frame row prev).climbing)
       then "sitting"
       else if (analyze_frame row prev).walking =
          max (analyze_frame row prev).sitting
            (max (analyze_frame row prev).walking
              (analyze_frame row prev).climbing)
       then "walking"
       else "climbing") := by
  simp only [analyze_frame_record, Confidences.items]
  rw [pyMax_snd_eq, pyMax_fst_eq]
  exact ⟨rfl, rfl⟩

/-- Claim C2: for every frame, when at least one raw sub-rule fired (raw
total positive) each output confidence is its raw value divided by the raw
total times 100 and the three outputs sum exactly to 100; when no sub-rule
fired, normalization is skipped and all three outputs are the raw zeros. -/
theorem claim_C2 (row : Row) (prev : Option Row) :
    if 0 < analyze_sitting row prev + analyze_walking row prev
        + analyze_climbing row prev then
      (analyze_frame row prev).sitting =
          (analyze_sitting row prev : ℚ)
            / ((analyze_sitting row prev + analyze_walking row prev
                + analyze_climbing row prev : ℕ) : ℚ) * 100 ∧
      (analyze_frame row prev).walking =
          (analyze_walking row prev : ℚ)
            / ((analyze_sitting row prev + analyze_walking row prev
                + analyze_climbing row prev : ℕ) : ℚ) * 100 ∧
      (analyze_frame row prev).climbing =
          (analyze_climbing row prev : ℚ)
            / ((analyze_sitting row prev + analyze_walking row prev
                + analyze_climbing row prev : ℕ) : ℚ) * 100 ∧
      (analyze_frame row prev).sitting + (analyze_frame row prev).walking
          + (analyze_frame row prev).climbing = 100
    else
      (analyze_frame row prev).sitting = 0 ∧
      (analyze_frame row prev).walking = 0 ∧
      (analyze_frame row prev).climbing = 0 := by
  by_cases h : 0 < analyze_sitting row prev + analyze_walking row prev
      + analyze_climbing row prev
  · rw [if_pos h]
    have ht : ((analyze_sitting row prev + analyze_walking row prev
        + analyze_climbing row prev : ℕ) : ℚ) ≠ 0 :=
      Nat.cast_ne_zero.mpr h.ne'
    simp only [analyze_frame]
    rw [if_pos h]
    refine ⟨rfl, rfl, rfl, ?_⟩
    have ht' : ((analyze_sitting row prev : ℚ) + (analyze_walking row prev : ℚ)
        + (analyze_climbing row prev : ℚ)) ≠ 0 := by
      push_cast at ht
      exact ht
    push_cast
    field_simp
    ring
  · rw [if_neg h]
    have hs : analyze_sitting row prev = 0 := by omega
    have hw : analyze_walking row prev = 0 := by omega
    have hc : analyze_climbing row prev = 0 := by omega
    simp only [analyze_frame]
    rw [if_neg h]
    refine ⟨?_, ?_, ?_⟩ <;> simp [hs, hw, hc]

lemma analyzeFramesFrom_map_frame (l : List Row) :
    ∀ (prev : Option Row) (idx : ℕ),
      (analyzeFramesFrom prev idx l).map FrameResult.frame =
        List.range' (idx + 1) l.length := by
  induction l with
  | nil => intro prev idx; rfl
  | cons r rs ih =>
      intro prev idx
      simp only [analyzeFramesFrom, List.map_cons, List.length_cons,
        List.range'_succ, ih]
      rfl

/-- Claim C9: classifying a frame sequence yields exactly one output record
per input frame, in input order, carrying 1-based frame numbers
1, 2, ..., N; in particular an empty input yields an empty output. -/
theorem claim_C9 (data : List Row) :
    (analyze_all_frames data).length = data.length ∧
    (analyze_all_frames data).map FrameResult.frame =
      List.range' 1 data.length ∧
    analyze_all_frames ([] : List Row) = ([] : List FrameResult) := by
  refine ⟨?_, ?_, rfl⟩
  · have h := congrArg List.length (analyzeFramesFrom_map_frame data none 0)
    simpa using h
  · simpa using analyzeFramesFrom_map_frame data none 0

/-- Claim C7: per-frame scoring and classification are total on rows whose
coordinates are NaN: a NaN input propagates through the distance arithmetic,
every sub-rule comparison involving NaN is false, so a fully malformed row
scores 0 in all three behaviors, skips normalization, and still yields a
well-formed `unknown` record instead of failing. -/
theorem claim_C7 (prev : Option Row) (y1 x2 y2 : F) :
    calculate_distance none y1 x2 y2 = none ∧
    analyze_sitting nanRow prev = 0 ∧
    analyze_walking nanRow prev = 0 ∧
    analyze_climbing nanRow prev = 0 ∧
    analyze_frame nanRow prev = { sitting := 0, walking := 0, climbing := 0 } ∧
    analyze_all_frames [nanRow] =
      [{ frame := 1, sitting := 0, walking := 0, climbing := 0,
         behavior := "unknown", confidence := 0 }] := by
  have hsit : ∀ q : Option Row, analyze_sitting nanRow q = 0 := by
    intro q
    rw [analyze_sitting_split]
    simp [sittingScoreUncapped, sittingLowMovement, sittingBentLegs,
      sittingTorsoUpright, hipMidpoint, nanRow, calculate_distance,
      calculate_angle, fsub_none_left, fsub_none_right, fadd_none_left,
      fadd_none_right, fdiv_none_left, fatan2_none_left, fatan2_none_right,
      fsq, fsqrt, fabs, fdegrees, fltP_none_left, fltP_none_right]
  have hwalk : ∀ q : Option Row, analyze_walking nanRow q = 0 := by
    intro q
    rw [analyze_walking_split]
    simp [walkingScoreUncapped, walkingHorizontalMove, walkingLegSeparation,
      nanRow, calculate_distance, fsub_none_left, fsub_none_right,
      fadd_none_left, fadd_none_right, fsq, fsqrt, fabs,
      fltP_none_left, fltP_none_right]
  have hclimb : ∀ q : Option Row, analyze_climbing nanRow q = 0 := by
    intro q
    rw [analyze_climbing_split]
    simp [climbingScoreUncapped, climbingArmExtended, climbingHandsElevated,
      climbingFeetHanging, nanRow, calculate_distance, fsub_none_left,
      fsub_none_right, fadd_none_left, fadd_none_right, fsq, fsqrt,
      fltP_none_left, fltP_none_right]
  have hframe : ∀ q : Option Row, analyze_frame nanRow q =
      { sitting := 0, walking := 0, climbing := 0 } := by
    intro q
    simp [analyze_frame, hsit q, hwalk q, hclimb q]
  refine ⟨calculate_distance_none_x1 y1 x2 y2, hsit prev, hwalk prev,
    hclimb prev, hframe prev, ?_⟩
  simp [analyze_all_frames, analyzeFramesFrom, analyze_frame_record,
    hframe none, Confidences.items, pyMax, pyMaxAux]

/-- Claim C8: on real (non-NaN) points the angle helper always returns a
value, that value is non-negative and strictly below 360 degrees, and it is
not a canonical interior angle: at the concrete points (0,-1), (0,0),
(-1,0) it returns 270, strictly above 180. -/
theorem claim_C8 :
    (∀ x1 y1 x2 y2 x3 y3 : ℝ, ∃ v : ℝ,
      calculate_angle (some x1, some y1) (some x2, some y2)
        (some x3, some y3) = some v ∧ 0 ≤ v ∧ v < 360) ∧
    (∃ v : ℝ,
      calculate_angle (some 0, some (-1)) (some 0, some 0)
        (some (-1), some 0) = some v ∧ 180 < v) := by
  constructor
  · intro x1 y1 x2 y2 x3 y3
    refine ⟨_, rfl, abs_nonneg _, ?_⟩
    set a := Complex.arg ⟨x3 - x2, y3 - y2⟩ with ha
    set b := Complex.arg ⟨x1 - x2, y1 - y2⟩ with hb
    have ha1 : a ≤ Real.pi := Complex.arg_le_pi _
    have ha2 : -Real.pi < a := Complex.neg_pi_lt_arg _
    have hb1 : b ≤ Real.pi := Complex.arg_le_pi _
    have hb2 : -Real.pi < b := Complex.neg_pi_lt_arg _
    have habs : |a - b| < 2 * Real.pi := abs_lt.mpr ⟨by linarith, by linarith⟩
    have hpos : (0 : ℝ) < 180 / Real.pi := by positivity
    calc |(a - b) * 180 / Real.pi| = |a - b| * (180 / Real.pi) := by
          rw [mul_div_assoc, abs_mul, abs_of_pos hpos]
      _ < (2 * Real.pi) * (180 / Real.pi) :=
          mul_lt_mul_of_pos_right habs hpos
      _ = 360 := by
          field_simp
          ring
  · refine ⟨270, ?_, by norm_num⟩
    have e1 : (⟨(-1 : ℝ) - 0, (0 : ℝ) - 0⟩ : ℂ) = -1 := by
      apply Complex.ext <;> simp
    have e2 : (⟨(0 : ℝ) - 0, (-1 : ℝ) - 0⟩ : ℂ) = -Complex.I := by
      apply Complex.ext <;> simp
    simp only [calculate_angle, fsub, fatan2, fdegrees, fabs, e1, e2,
      Complex.arg_neg_one, Complex.arg_neg_I]
    have hv : (Real.pi - -(Real.pi / 2)) * 180 / Real.pi = 270 := by
      field_simp
      ring
    rw [hv, abs_of_pos (by norm_num : (0 : ℝ) < 270)]

end
